import Mathlib

/-!
Verification development for the translation-practice tool in `src/main.py`.

The script wires a sentence-embedding model, a JSON data file, form widgets
and a spreadsheet append call.  The embedding model, the Google credential
loading, the spreadsheet client and the current time are external effects;
they are modelled as explicit parameters (an embedding function
`String → List ℝ`, an abstract similarity function, an environment record
for the credential sources, an `Except`-valued append outcome and a
timestamp string).  Everything else is translated directly from the source.
-/

/-- Data model of one record of `data/translations.json`
(`main.py` lines 43-51, 81-92): a Japanese sentence, the canonical English
reference, and an optional list of alternative references
(`entry.get("alternatives", [])`). -/
structure TranslationEntry where
  japanese : String
  english : String
  alternatives : Option (List String)
deriving DecidableEq

/-- Variant list scored against the learner's answer
(`main.py` lines 108, 131): `[entry["english"]] + entry.get("alternatives", [])`. -/
def allVariants (entry : TranslationEntry) : List String :=
  entry.english :: entry.alternatives.getD []

/-- Dot product of two vectors given as lists, pairing componentwise
(extra trailing components are dropped).  Used to model the float linear
algebra inside `util.pytorch_cos_sim`. -/
def dot {α : Type} [Mul α] [Add α] [Zero α] (u v : List α) : α :=
  (List.zipWith (fun a b => a * b) u v).sum

/-- Model of `util.pytorch_cos_sim` (`main.py` line 56) on a single pair of
vectors: the dot product divided by the product of the Euclidean norms.
The square root is passed as a parameter so the definition stays
polymorphic; every theorem instantiates it with `Real.sqrt`.
(The library clamps the denominator away from zero with a small epsilon;
here a zero denominator makes the quotient zero, which only matters for
degenerate zero embeddings.) -/
def pytorch_cos_sim {α : Type} [LinearOrderedField α] (sqrt : α → α) (u v : List α) : α :=
  dot u v / (sqrt (dot u u) * sqrt (dot v v))

/-- Model of `scores.max()` / `scores.argmax()` on a score vector
(`main.py` lines 57-58): the maximum together with the index of its first
occurrence, `none` on an empty vector (where the torch reductions raise). -/
def maxWithIdx {α : Type} [LinearOrder α] : List α → Option (α × Nat)
  | [] => none
  | x :: xs =>
    match maxWithIdx xs with
    | none => some (x, 0)
    | some (m, i) => if m ≤ x then some (x, 0) else some (m, i + 1)

/-- Model of `compute_score_and_best` (`main.py` lines 54-59).  The external
encoder plus cosine step is abstracted into `sim : String → String → α`, so
that `sim user_text v` stands for
`pytorch_cos_sim (encode user_text) (encode v)`; the theorems about cosine
facts instantiate `sim` accordingly.  `none` models the exception the
Python code raises on an empty variant list (the torch reductions and the
list indexing `variants[best_idx]` all fail there). -/
def compute_score_and_best {α : Type} [LinearOrder α] (sim : String → String → α)
    (user_text : String) (variants : List String) : Option (α × String) :=
  match maxWithIdx (variants.map (fun v => sim user_text v)) with
  | none => none
  | some (best_score, best_idx) =>
    match variants[best_idx]? with
    | none => none
    | some best => some (best_score, best)

theorem maxWithIdx_eq_none_iff {α : Type} [LinearOrder α] (l : List α) :
    maxWithIdx l = none ↔ l = [] := by
  cases l with
  | nil => simp [maxWithIdx]
  | cons x xs =>
    cases h : maxWithIdx xs with
    | none => simp [maxWithIdx, h]
    | some p =>
      obtain ⟨m, i⟩ := p
      simp only [maxWithIdx, h]
      split <;> simp

theorem maxWithIdx_spec {α : Type} [LinearOrder α] :
    ∀ (l : List α) (m : α) (i : Nat), maxWithIdx l = some (m, i) →
      l[i]? = some m ∧ ∀ x ∈ l, x ≤ m := by
  intro l
  induction l with
  | nil => intro m i h; simp [maxWithIdx] at h
  | cons x xs ih =>
    intro m i h
    cases hx : maxWithIdx xs with
    | none =>
      have hxs : xs = [] := (maxWithIdx_eq_none_iff xs).mp hx
      subst hxs
      simp only [maxWithIdx] at h
      obtain ⟨rfl, rfl⟩ := Prod.mk.injEq .. ▸ Option.some.injEq .. ▸ h
      simp
    | some p =>
      obtain ⟨m', i'⟩ := p
      obtain ⟨hget, hmax⟩ := ih m' i' hx
      simp only [maxWithIdx, hx] at h
      by_cases hle : m' ≤ x
      · rw [if_pos hle] at h
        obtain ⟨rfl, rfl⟩ := Prod.mk.injEq .. ▸ Option.some.injEq .. ▸ h
        refine ⟨by simp, ?_⟩
        intro y hy
        rcases List.mem_cons.mp hy with rfl | hy
        · exact le_refl _
        · exact le_trans (hmax y hy) hle
      · rw [if_neg hle] at h
        obtain ⟨rfl, rfl⟩ := Prod.mk.injEq .. ▸ Option.some.injEq .. ▸ h
        refine ⟨by simpa using hget, ?_⟩
        intro y hy
        rcases List.mem_cons.mp hy with rfl | hy
        · exact le_of_lt (not_le.mp hle)
        · exact hmax y hy

theorem compute_score_and_best_spec {α : Type} [LinearOrder α]
    (sim : String → String → α) (user : String) (variants : List String)
    (hne : variants ≠ []) :
    ∃ s b, compute_score_and_best sim user variants = some (s, b) ∧ b ∈ variants ∧
      sim user b = s ∧ ∀ v ∈ variants, sim user v ≤ s := by
  cases hmx : maxWithIdx (variants.map (fun v => sim user v)) with
  | none =>
    have : variants.map (fun v => sim user v) = [] :=
      (maxWithIdx_eq_none_iff _).mp hmx
    exact absurd (List.map_eq_nil_iff.mp this) hne
  | some p =>
    obtain ⟨m, i⟩ := p
    obtain ⟨hget, hmax⟩ := maxWithIdx_spec _ m i hmx
    rw [List.getElem?_map] at hget
    cases hvi : variants[i]? with
    | none => rw [hvi] at hget; simp at hget
    | some b =>
      rw [hvi] at hget
      simp only [Option.map_some', Option.some.injEq] at hget
      refine ⟨m, b, ?_, ?_, hget, ?_⟩
      · simp [compute_score_and_best, hmx, hvi]
      · exact List.getElem?_mem hvi
      · intro v hv
        exact hmax _ (List.mem_map_of_mem _ hv)

theorem dot_cons {α : Type} [Mul α] [Add α] [Zero α] (a b : α) (u v : List α) :
    dot (a :: u) (b :: v) = a * b + dot u v := by
  simp [dot]

theorem dot_self_nonneg {α : Type} [LinearOrderedRing α] :
    ∀ u : List α, 0 ≤ dot u u := by
  intro u
  induction u with
  | nil => simp [dot]
  | cons a u ih =>
    rw [dot_cons]
    exact add_nonneg (mul_self_nonneg a) ih

theorem dot_sq_le_dot_mul_dot {α : Type} [LinearOrderedCommRing α] :
    ∀ u v : List α, (dot u v) ^ 2 ≤ dot u u * dot v v := by
  intro u
  induction u with
  | nil => intro v; simp [dot]
  | cons a u ih =>
    intro v
    cases v with
    | nil => simp [dot]
    | cons b v =>
      have h := ih v
      have h1 := dot_self_nonneg (α := α) u
      have h2 := dot_self_nonneg (α := α) v
      have hs : (0 : α) ≤ dot u u * dot v v - (dot u v) ^ 2 := sub_nonneg.mpr h
      rw [dot_cons, dot_cons, dot_cons]
      by_cases hv0 : dot v v = 0
      · have hp : dot u v = 0 := by
          have hp2 : (dot u v) ^ 2 = 0 :=
            le_antisymm (by nlinarith) (sq_nonneg _)
          exact pow_eq_zero_iff (two_ne_zero) |>.mp hp2
        rw [hp, hv0]
        nlinarith [mul_nonneg h1 (sq_nonneg b), mul_nonneg (sq_nonneg a) h1]
      · have hv : 0 < dot v v := lt_of_le_of_ne h2 (Ne.symm hv0)
        nlinarith [sq_nonneg (a * dot v v - b * dot u v),
          mul_nonneg (sq_nonneg b) hs, mul_nonneg h2 hs, hv]

theorem pytorch_cos_sim_le_one (u v : List ℝ) :
    pytorch_cos_sim Real.sqrt u v ≤ 1 := by
  by_cases hd : Real.sqrt (dot u u) * Real.sqrt (dot v v) = 0
  · simp [pytorch_cos_sim, hd]
  · have hnn : 0 ≤ Real.sqrt (dot u u) * Real.sqrt (dot v v) :=
      mul_nonneg (Real.sqrt_nonneg _) (Real.sqrt_nonneg _)
    have hpos : 0 < Real.sqrt (dot u u) * Real.sqrt (dot v v) :=
      lt_of_le_of_ne hnn (Ne.symm hd)
    rw [pytorch_cos_sim, div_le_one hpos]
    calc dot u v ≤ |dot u v| := le_abs_self _
      _ = Real.sqrt ((dot u v) ^ 2) := (Real.sqrt_sq_eq_abs _).symm
      _ ≤ Real.sqrt (dot u u * dot v v) := Real.sqrt_le_sqrt (dot_sq_le_dot_mul_dot u v)
      _ = Real.sqrt (dot u u) * Real.sqrt (dot v v) := Real.sqrt_mul (dot_self_nonneg u) _

theorem pytorch_cos_sim_self (v : List ℝ) (hnz : dot v v ≠ 0) :
    pytorch_cos_sim Real.sqrt v v = 1 := by
  rw [pytorch_cos_sim, Real.mul_self_sqrt (dot_self_nonneg v), div_self hnz]

/-- C1: for every embedding function and every non-empty reference list,
`compute_score_and_best` returns the maximum cosine similarity between the
answer's embedding and the references' embeddings together with a reference
achieving exactly that similarity, and the returned best reference is a
member of the supplied reference list. -/
theorem compute_score_and_best_returns_max_cosine
    (encode : String → List ℝ) (user : String) (variants : List String)
    (hne : variants ≠ []) :
    ∃ s b, compute_score_and_best
        (fun a r => pytorch_cos_sim Real.sqrt (encode a) (encode r)) user variants
        = some (s, b)
      ∧ b ∈ variants
      ∧ pytorch_cos_sim Real.sqrt (encode user) (encode b) = s
      ∧ ∀ v ∈ variants, pytorch_cos_sim Real.sqrt (encode user) (encode v) ≤ s :=
  compute_score_and_best_spec _ user variants hne

theorem compute_score_and_best_returns_max_cosine_witness :
    ∃ s b, compute_score_and_best
        (fun _ _ => pytorch_cos_sim Real.sqrt [(1 : ℝ)] [(1 : ℝ)]) "a" ["a"]
        = some (s, b)
      ∧ b ∈ ["a"]
      ∧ pytorch_cos_sim Real.sqrt [(1 : ℝ)] [(1 : ℝ)] = s
      ∧ ∀ v ∈ ["a"], pytorch_cos_sim Real.sqrt [(1 : ℝ)] [(1 : ℝ)] ≤ s :=
  compute_score_and_best_returns_max_cosine (fun _ => [(1 : ℝ)]) "a" ["a"] (by decide)

/-- C6: whenever the learner's exact answer string is one of the references
and its embedding is not the zero vector, the best score returned by
`compute_score_and_best` is `1`, the maximum possible cosine similarity. -/
theorem exact_answer_scores_maximum_similarity
    (encode : String → List ℝ) (answer : String) (variants : List String)
    (hmem : answer ∈ variants) (hnz : dot (encode answer) (encode answer) ≠ 0) :
    ∃ b, compute_score_and_best
        (fun a r => pytorch_cos_sim Real.sqrt (encode a) (encode r)) answer variants
        = some (1, b) ∧ b ∈ variants := by
  obtain ⟨s, b, hc, hb, hsb, hmax⟩ :=
    compute_score_and_best_spec
      (fun a r => pytorch_cos_sim Real.sqrt (encode a) (encode r)) answer variants
      (List.ne_nil_of_mem hmem)
  have hle : s ≤ 1 := hsb ▸ pytorch_cos_sim_le_one _ _
  have hge : (1 : ℝ) ≤ s := by
    have h := hmax answer hmem
    rwa [pytorch_cos_sim_self _ hnz] at h
  have hs1 : s = 1 := le_antisymm hle hge
  exact ⟨b, hs1 ▸ hc, hb⟩

theorem exact_answer_scores_maximum_similarity_witness :
    ∃ b, compute_score_and_best
        (fun _ _ => pytorch_cos_sim Real.sqrt [(1 : ℝ)] [(1 : ℝ)]) "a" ["a"]
        = some (1, b) ∧ b ∈ ["a"] :=
  exact_answer_scores_maximum_similarity (fun _ => [(1 : ℝ)]) "a" ["a"]
    (by decide) (by norm_num [dot])

/-- C8 (counterexample to the claim as stated): on an empty reference list
the scorer does fail even with the model available: the torch reductions
and the indexing `variants[best_idx]` raise, modelled by the `none` result. -/
theorem compute_score_and_best_empty_references_errors :
    compute_score_and_best (fun _ _ => (0 : ℚ)) "any answer" ([] : List String) = none :=
  rfl

/-- C8 (amended): for every answer string and every NON-EMPTY reference
list the scorer raises no error of its own: it returns a result for every
similarity function the external model may implement. -/
theorem compute_score_and_best_total_on_nonempty {α : Type} [LinearOrder α]
    (sim : String → String → α) (user : String) (variants : List String)
    (hne : variants ≠ []) :
    (compute_score_and_best sim user variants).isSome = true := by
  obtain ⟨s, b, hc, -, -, -⟩ := compute_score_and_best_spec sim user variants hne
  rw [hc]
  rfl

theorem compute_score_and_best_total_on_nonempty_witness :
    (compute_score_and_best (fun _ _ => (0 : ℚ)) "a" ["ref"]).isSome = true :=
  compute_score_and_best_total_on_nonempty (fun _ _ => (0 : ℚ)) "a" ["ref"] (by decide)

/-- Passing threshold (`main.py` line 13): `THRESHOLD = 0.80`. -/
def THRESHOLD (α : Type) [LinearOrderedField α] : α := 0.80

/-- Pass/fail label of a recorded submission (`main.py` line 147):
`"Pass" if best_score >= THRESHOLD else "Fail"`. -/
def passLabel {α : Type} [LinearOrderedField α] (score : α) : String :=
  if THRESHOLD α ≤ score then "Pass" else "Fail"

/-- Outcome of the threshold comparison shown to the learner
(`main.py` lines 113-116 and 149-152): `best_score >= THRESHOLD`. -/
def passB {α : Type} [LinearOrderedField α] (score : α) : Bool :=
  if THRESHOLD α ≤ score then true else false

/-- Model of Python's `str.strip()` as used in the emptiness checks
(`main.py` lines 105, 127): leading and trailing whitespace removed. -/
def pyStrip (s : String) : String :=
  ⟨((s.data.dropWhile Char.isWhitespace).reverse.dropWhile Char.isWhitespace).reverse⟩

/-- Model of Python's `str.split()` with no separator (`main.py` line 63):
the maximal whitespace-free words of the string, in order; runs of
whitespace never produce empty words.  `acc` carries the characters of the
current word in reverse. -/
def wordsAux : List Char → List Char → List String
  | [], acc => if acc.isEmpty then [] else [⟨acc.reverse⟩]
  | c :: cs, acc =>
    if c.isWhitespace then
      if acc.isEmpty then wordsAux cs [] else ⟨acc.reverse⟩ :: wordsAux cs []
    else wordsAux cs (c :: acc)

/-- Whitespace word-splitting entry point, `user_text.split()`. -/
def pySplit (s : String) : List String :=
  wordsAux s.data []

/-- One line of a word-level diff, tagged the way `difflib.ndiff` prefixes
its output lines: present only in the second sequence (`"+ "`), only in the
first (`"- "`), or common to both (`"  "`). -/
inductive DiffTok where
  | ins (w : String)
  | del (w : String)
  | eq (w : String)
deriving DecidableEq

/-- Length of a longest common subsequence of two word lists; the tie-break
oracle of the diff below. -/
def lcsLen : List String → List String → Nat
  | [], _ => 0
  | _ :: _, [] => 0
  | x :: xs, y :: ys =>
    if x = y then lcsLen xs ys + 1
    else max (lcsLen xs (y :: ys)) (lcsLen (x :: xs) ys)
termination_by xs ys => xs.length + ys.length

/-- Modelled from the spec: `difflib.ndiff` (`main.py` line 63) is standard
library code, not part of this repository; per the spec it produces "a
word-level edit script (opcodes: equal, insertion, deletion)".  This is an
ordinary longest-common-subsequence edit script: words common to both
sequences are emitted as `eq`, words only in the first as `del`, words only
in the second as `ins`.  `difflib`'s intraline `"? "` hint lines (which the
source skips) are not produced.  The claims proved here depend only on the
behaviour on identical sequences, where any common-subsequence diff agrees
with `difflib`. -/
def ndiff : List String → List String → List DiffTok
  | [], ys => ys.map DiffTok.ins
  | x :: xs, [] => DiffTok.del x :: ndiff xs []
  | x :: xs, y :: ys =>
    if x = y then DiffTok.eq x :: ndiff xs ys
    else if lcsLen (x :: xs) ys ≤ lcsLen xs (y :: ys) then
      DiffTok.del x :: ndiff xs (y :: ys)
    else
      DiffTok.ins y :: ndiff (x :: xs) ys
termination_by xs ys => xs.length + ys.length

/-- Rendering of one diff line in `highlight_diff` (`main.py` lines 65-71):
insertions and deletions are wrapped in coloured span markup, equal words
are kept bare. -/
def renderTok : DiffTok → String
  | DiffTok.ins w => "<span style=\x27background-color:#b3ffb3\x27> " ++ w ++ " </span>"
  | DiffTok.del w => "<span style=\x27background-color:#ffcccc\x27> " ++ w ++ " </span>"
  | DiffTok.eq w => w

/-- Model of `highlight_diff` (`main.py` lines 61-72): split both strings
into words, diff them, render each line and join everything with spaces. -/
def highlight_diff (user_text best_variant : String) : String :=
  " ".intercalate ((ndiff (pySplit user_text) (pySplit best_variant)).map renderTok)

/-- Insertion-tagged lines (`token.startswith("+ ")`). -/
def isInsTok : DiffTok → Bool
  | DiffTok.ins _ => true
  | _ => false

/-- Deletion-tagged lines (`token.startswith("- ")`). -/
def isDelTok : DiffTok → Bool
  | DiffTok.del _ => true
  | _ => false

/-- Equal-tagged lines (`token.startswith("  ")`). -/
def isEqTok : DiffTok → Bool
  | DiffTok.eq _ => true
  | _ => false

theorem ndiff_self : ∀ ws : List String, ndiff ws ws = ws.map DiffTok.eq := by
  intro ws
  induction ws with
  | nil => simp [ndiff]
  | cons x xs ih => simp [ndiff, ih]

/-- C4: diffing a string against itself yields an alignment with zero
insertion-tagged lines, zero deletion-tagged lines, every line an equal
line, and `highlight_diff` of a string with itself renders no highlight
markup: it is just the words of the string joined by spaces. -/
theorem highlight_diff_identical_strings_all_equal (s : String) :
    (ndiff (pySplit s) (pySplit s)).countP isInsTok = 0
    ∧ (ndiff (pySplit s) (pySplit s)).countP isDelTok = 0
    ∧ (ndiff (pySplit s) (pySplit s)).all isEqTok = true
    ∧ highlight_diff s s = " ".intercalate (pySplit s) := by
  have h := ndiff_self (pySplit s)
  refine ⟨?_, ?_, ?_, ?_⟩
  · rw [h, List.countP_map]
    simp [Function.comp, isInsTok]
  · rw [h, List.countP_map]
    simp [Function.comp, isDelTok]
  · rw [h]
    simp only [List.all_eq_true]
    intro t ht
    obtain ⟨w, -, rfl⟩ := List.mem_map.mp ht
    rfl
  · rw [highlight_diff, h, List.map_map]
    have hcomp : renderTok ∘ DiffTok.eq = id := funext (fun w => rfl)
    rw [hcomp, List.map_id]

/-- Cached result of the last Try in `st.session_state`
(`main.py` lines 97-101): `last_score` and `last_variant`, both absent
(`None`) until a Try succeeds. -/
structure SessionState (α : Type) where
  last_score : Option α
  last_variant : Option String
deriving DecidableEq

/-- Visible outcome of the Try Translation handler
(`main.py` lines 104-123): the prompt
`"Please enter a translation before trying."` on blank input; otherwise the
feedback block showing the best score, the closest variant, the threshold
verdict and the rendered differences.  `modelError` marks a raised
exception from the scorer (unreachable: the variant list is never empty). -/
inductive TryOut (α : Type) where
  | prompt
  | feedback (best_score : α) (best_variant : String) (passed : Bool) (diff : String)
  | modelError
deriving DecidableEq

/-- Model of the Try Translation handler (`main.py` lines 104-123) as a
function of the similarity function, the selected entry, the cached session
state and the text field contents; returns the visible outcome, the new
session state and how many times the scorer was invoked. -/
def tryHandler {α : Type} [LinearOrderedField α] (sim : String → String → α)
    (entry : TranslationEntry) (state : SessionState α) (user_input : String) :
    TryOut α × SessionState α × Nat :=
  if pyStrip user_input = "" then
    (TryOut.prompt, state, 0)
  else
    match compute_score_and_best sim user_input (allVariants entry) with
    | none => (TryOut.modelError, state, 1)
    | some (best_score, best_variant) =>
        (TryOut.feedback best_score best_variant (passB best_score)
          (highlight_diff user_input best_variant),
         { last_score := some best_score, last_variant := some best_variant }, 1)

/-- One appended spreadsheet row (`main.py` lines 142-148): timestamp,
Japanese sentence, learner answer, best score (formatted to four decimals
in the source; kept as the exact value here) and the pass/fail label. -/
structure Row (α : Type) where
  timestamp : String
  japanese : String
  student_translation : String
  score : α
  label : String
deriving DecidableEq

/-- Row construction of `sheet.append_row` (`main.py` lines 142-148). -/
def recordRow {α : Type} [LinearOrderedField α]
    (timestamp selected_japanese user_input : String) (best_score : α) : Row α :=
  { timestamp := timestamp
    japanese := selected_japanese
    student_translation := user_input
    score := best_score
    label := passLabel best_score }

/-- Spreadsheet worksheet handle (`client.open_by_key(...).sheet1`),
abstracted to its key. -/
structure Worksheet where
  sheetId : String
deriving DecidableEq

/-- Score and variant the Submit handler uses (`main.py` lines 130-135):
the cached pair when a previous Try stored one, otherwise a fresh scorer
call on the current input; the second component counts scorer calls.  An
inner `none` models the scorer raising (unreachable: the variant list is
never empty). -/
def submitScore {α : Type} [LinearOrderedField α] (sim : String → String → α)
    (entry : TranslationEntry) (state : SessionState α) (user_input : String) :
    Option (α × Option String) × Nat :=
  match state.last_score with
  | none =>
    match compute_score_and_best sim user_input (allVariants entry) with
    | none => (none, 1)
    | some (s, b) => (some (s, some b), 1)
  | some s => (some (s, state.last_variant), 0)

/-- Visible outcome of the Submit handler (`main.py` lines 126-156):
the prompt `"Please enter a translation before submitting."` on blank
input; the error `"Google Sheet not available. Submission failed."` when
the sheet handle is `None`; a recorded row with its threshold verdict on a
successful append; the caught append failure message otherwise. -/
inductive SubmitOut (α : Type) where
  | prompt
  | sheetUnavailable
  | submitted (row : Row α) (passed : Bool)
  | saveFailed (msg : String)
  | modelError
deriving DecidableEq

/-- Model of the Submit handler (`main.py` lines 126-156) as a function of
the similarity function, the selected entry and sentence, the timestamp
(`datetime.now()`), the sheet handle, the outcome of the external
`append_row` call, the cached session state and the text field contents;
returns the visible outcome, the new session state and the number of
scorer invocations. -/
def submitHandler {α : Type} [LinearOrderedField α] (sim : String → String → α)
    (entry : TranslationEntry) (selected_japanese timestamp : String)
    (sheet : Option Worksheet) (appendResult : Except String Unit)
    (state : SessionState α) (user_input : String) :
    SubmitOut α × SessionState α × Nat :=
  if pyStrip user_input = "" then
    (SubmitOut.prompt, state, 0)
  else
    match submitScore sim entry state user_input with
    | (none, n) => (SubmitOut.modelError, state, n)
    | (some (best_score, _), n) =>
      match sheet with
      | none => (SubmitOut.sheetUnavailable, state, n)
      | some _ =>
        match appendResult with
        | Except.ok _ =>
            (SubmitOut.submitted (recordRow timestamp selected_japanese user_input best_score)
              (passB best_score),
             { last_score := none, last_variant := none }, n)
        | Except.error e =>
            (SubmitOut.saveFailed ("Failed to save your submission: " ++ e), state, n)

/-- Service-account credentials, abstracted to their payload. -/
structure Creds where
  info : String
deriving DecidableEq

/-- Spreadsheet id (`main.py` line 12). -/
def SPREADSHEET_ID : String := "1_fy_83CUtcfT7iXSSC2aPNS7sJOWONyTPs0h9aFUzmc"

/-- External inputs of `get_gsheet` (`main.py` lines 16-31).
`credFile` is `some r` when `"credentials.json" in os.listdir()`, where `r`
is the outcome of `Credentials.from_service_account_file` (which raises on
an invalid file, modelled by `Except.error`).  `secrets` is the value of
`st.secrets.get("gcp_service_account")` when set.  `secretCreds` is
`json.loads` plus `Credentials.from_service_account_info` on the secret.
`authorize` is `gspread.authorize(creds)` followed by
`client.open_by_key(key).sheet1`; its failures also raise. -/
structure GsheetEnv where
  credFile : Option (Except String Creds)
  secrets : Option String
  secretCreds : String → Except String Creds
  authorize : Creds → String → Except String Worksheet

/-- Model of `get_gsheet` (`main.py` lines 16-31): `Except.error` is an
uncaught exception escaping the function; `Except.ok (sheet?, warnings)`
is a normal return together with the warnings shown.  An empty-string
secret is falsy in Python, so it takes the warning branch. -/
def get_gsheet (env : GsheetEnv) : Except String (Option Worksheet × List String) :=
  match env.credFile with
  | some (Except.error e) => Except.error e
  | some (Except.ok creds) =>
    (match env.authorize creds SPREADSHEET_ID with
     | Except.error e => Except.error e
     | Except.ok ws => Except.ok (some ws, []))
  | none =>
    match env.secrets with
    | some sv =>
      if sv = "" then Except.ok (none, ["Google credentials not configured."])
      else
        (match env.secretCreds sv with
         | Except.error e => Except.error e
         | Except.ok creds =>
           match env.authorize creds SPREADSHEET_ID with
           | Except.error e => Except.error e
           | Except.ok ws => Except.ok (some ws, []))
    | none => Except.ok (none, ["Google credentials not configured."])

/-- Model of `load_translations` (`main.py` lines 43-48): when the data
file is missing, `st.error("Translation file not found.")` is shown and the
empty list is returned; otherwise the parsed file contents are returned.
The returned pair is (translations, error messages shown). -/
def load_translations (fileExists : Bool) (fileData : List TranslationEntry) :
    List TranslationEntry × List String :=
  if fileExists then (fileData, []) else ([], ["Translation file not found."])

/-- Model of `japanese_to_entry` (`main.py` line 51): the dictionary
`{entry["japanese"]: entry for entry in translations}` as an association
list (later duplicates overwrite in Python; only emptiness matters here). -/
def japanese_to_entry (translations : List TranslationEntry) :
    List (String × TranslationEntry) :=
  translations.map (fun e => (e.japanese, e))

/-- What the page startup shows (`main.py` lines 43-81): the errors and
warnings displayed, and whether `st.stop()` ran.  `st.stop()` raises a
control exception that ends the script run, so `halted = true` means no
sentence selectbox, no Try handler and no Submit handler is ever reached. -/
structure StartupView where
  errors : List String
  warnings : List String
  halted : Bool
deriving DecidableEq

/-- Model of the startup sequence (`main.py` lines 43-81): load the data
file, build the mapping, and stop with `"No translation data found."` when
the mapping is empty. -/
def startup (fileExists : Bool) (fileData : List TranslationEntry) : StartupView :=
  let loaded := load_translations fileExists fileData
  if (japanese_to_entry loaded.fst).isEmpty then
    { errors := loaded.snd, warnings := ["No translation data found."], halted := true }
  else
    { errors := loaded.snd, warnings := [], halted := false }

theorem submitScore_exists {α : Type} [LinearOrderedField α]
    (sim : String → String → α) (entry : TranslationEntry)
    (state : SessionState α) (input : String) :
    ∃ s bv n, submitScore sim entry state input = (some (s, bv), n) := by
  cases h : state.last_score with
  | some s => exact ⟨s, state.last_variant, 0, by simp [submitScore, h]⟩
  | none =>
    obtain ⟨s, b, hc, -, -, -⟩ :=
      compute_score_and_best_spec sim input (allVariants entry) (by simp [allVariants])
    exact ⟨s, some b, 1, by simp [submitScore, h, hc]⟩

theorem submitted_row_shape {α : Type} [LinearOrderedField α]
    (sim : String → String → α) (entry : TranslationEntry)
    (jap ts : String) (sheet : Option Worksheet) (append : Except String Unit)
    (state : SessionState α) (input : String) (row : Row α) (p : Bool)
    (st2 : SessionState α) (n : Nat)
    (h : submitHandler sim entry jap ts sheet append state input
        = (SubmitOut.submitted row p, st2, n)) :
    ∃ s, row = recordRow ts jap input s := by
  unfold submitHandler at h
  by_cases hstrip : pyStrip input = ""
  · rw [if_pos hstrip] at h
    simp at h
  · rw [if_neg hstrip] at h
    rcases hss : submitScore sim entry state input with ⟨o, m⟩
    rw [hss] at h
    cases o with
    | none => simp at h
    | some q =>
      obtain ⟨s, bv⟩ := q
      cases sheet with
      | none => simp at h
      | some w =>
        cases append with
        | error e => simp at h
        | ok u =>
          simp only [Prod.mk.injEq, SubmitOut.submitted.injEq] at h
          exact ⟨s, h.1.1.symm⟩

/-- C2: the recorded pass/fail label is `"Pass"` exactly when the best
score is at least the 0.80 threshold and `"Fail"` otherwise, with a score
of exactly 0.80 labelled `"Pass"`; and every row the Submit handler
appends carries that label for its own recorded score, together with the
current input text. -/
theorem recorded_pass_fail_label_matches_threshold {α : Type} [LinearOrderedField α] :
    (∀ (ts jap ans : String) (s : α),
        ((recordRow ts jap ans s).label = "Pass" ↔ THRESHOLD α ≤ s)
      ∧ ((recordRow ts jap ans s).label = "Fail" ↔ ¬ THRESHOLD α ≤ s))
    ∧ (∀ ts jap ans : String, (recordRow ts jap ans (THRESHOLD α)).label = "Pass")
    ∧ (∀ (sim : String → String → α) (entry : TranslationEntry)
        (jap ts : String) (sheet : Option Worksheet) (append : Except String Unit)
        (state : SessionState α) (input : String) (row : Row α) (p : Bool)
        (st2 : SessionState α) (n : Nat),
        submitHandler sim entry jap ts sheet append state input
          = (SubmitOut.submitted row p, st2, n) →
        row.label = passLabel row.score ∧ row.student_translation = input
          ∧ row.timestamp = ts ∧ row.japanese = jap) := by
  refine ⟨?_, ?_, ?_⟩
  · intro ts jap ans s
    by_cases hc : THRESHOLD α ≤ s <;> simp [recordRow, passLabel, hc]
  · intro ts jap ans
    simp [recordRow, passLabel]
  · intro sim entry jap ts sheet append state input row p st2 n h
    obtain ⟨s, rfl⟩ :=
      submitted_row_shape sim entry jap ts sheet append state input row p st2 n h
    exact ⟨rfl, rfl, rfl, rfl⟩

theorem recorded_pass_fail_label_matches_threshold_witness :
    ((recordRow "t" "j" "a" (THRESHOLD ℚ)).label = "Pass")
    ∧ ((recordRow "t" "j" "a" (0.5 : ℚ)).label = "Fail")
    ∧ ((recordRow "ts" "J" "ans" (1 : ℚ)).label = passLabel (recordRow "ts" "J" "ans" (1 : ℚ)).score) :=
  ⟨recorded_pass_fail_label_matches_threshold.2.1 "t" "j" "a",
   (recorded_pass_fail_label_matches_threshold.1 "t" "j" "a" (0.5 : ℚ)).2.mpr
     (by norm_num [THRESHOLD]),
   (recorded_pass_fail_label_matches_threshold.2.2
      (fun _ _ => (1 : ℚ)) ⟨"J", "e", none⟩ "J" "ts" (some ⟨"sid"⟩) (Except.ok ())
      ⟨none, none⟩ "ans" (recordRow "ts" "J" "ans" (1 : ℚ)) (passB 1) ⟨none, none⟩ 1
      rfl).1⟩

/-- C3: when the learner's input is empty or all whitespace, both the Try
handler and the Submit handler show only the enter-a-translation prompt:
the scorer is never called, the session state is unchanged and nothing is
appended. -/
theorem blank_input_prompts_without_scoring {α : Type} [LinearOrderedField α]
    (sim : String → String → α) (entry : TranslationEntry) (jap ts : String)
    (sheet : Option Worksheet) (append : Except String Unit)
    (state : SessionState α) (input : String) (h : pyStrip input = "") :
    tryHandler sim entry state input = (TryOut.prompt, state, 0)
    ∧ submitHandler sim entry jap ts sheet append state input
        = (SubmitOut.prompt, state, 0) := by
  constructor <;> simp [tryHandler, submitHandler, h]

theorem blank_input_prompts_without_scoring_witness :
    tryHandler (fun _ _ => (0 : ℚ)) ⟨"j", "e", none⟩ ⟨none, none⟩ "   "
      = (TryOut.prompt, ⟨none, none⟩, 0)
    ∧ submitHandler (fun _ _ => (0 : ℚ)) ⟨"j", "e", none⟩ "j" "ts" none (Except.ok ())
        ⟨none, none⟩ "   "
      = (SubmitOut.prompt, ⟨none, none⟩, 0) :=
  blank_input_prompts_without_scoring _ _ _ _ _ _ _ _ (by decide)

/-- C5: when the translation data file does not exist, the startup run
shows the file-not-found error and stops: `st.stop()` runs before any
sentence selection, scoring or submission handler is reached. -/
theorem missing_data_file_reports_error_and_halts (fileData : List TranslationEntry) :
    startup false fileData =
      { errors := ["Translation file not found."],
        warnings := ["No translation data found."],
        halted := true } :=
  rfl

/-- C7 (counterexample to the claim as stated): with an invalid (present
but unparseable) credentials file, `get_gsheet` does not warn and disable
persistence: the exception from `Credentials.from_service_account_file`
escapes uncaught and the script run dies before `sheet` is ever set. -/
theorem invalid_credentials_raise_uncaught :
    get_gsheet
      { credFile := some (Except.error "invalid service account file"),
        secrets := none,
        secretCreds := fun _ => Except.error "",
        authorize := fun _ _ => Except.error "" }
      = Except.error "invalid service account file" :=
  rfl

/-- C7 (amended): when the remote credentials are MISSING (no credentials
file and no configured secret), the user is warned, persistence is
disabled (the sheet handle is `None`) and every subsequent submission
attempt with non-blank input fails with a reported error instead of being
recorded; an INVALID credential source instead raises out of `get_gsheet`. -/
theorem missing_credentials_warn_and_disable_persistence {α : Type} [LinearOrderedField α]
    (env : GsheetEnv) (hfile : env.credFile = none)
    (hsecret : env.secrets = none ∨ env.secrets = some "")
    (sim : String → String → α) (entry : TranslationEntry) (jap ts : String)
    (append : Except String Unit) (state : SessionState α) (input : String)
    (hinput : pyStrip input ≠ "") :
    get_gsheet env = Except.ok (none, ["Google credentials not configured."])
    ∧ ∃ n, submitHandler sim entry jap ts none append state input
        = (SubmitOut.sheetUnavailable, state, n) := by
  constructor
  · rcases hsecret with h | h <;> simp [get_gsheet, hfile, h]
  · obtain ⟨s, bv, n, hss⟩ := submitScore_exists sim entry state input
    exact ⟨n, by simp [submitHandler, hinput, hss]⟩

theorem missing_credentials_warn_and_disable_persistence_witness :
    get_gsheet
      { credFile := none, secrets := none,
        secretCreds := fun _ => Except.error "",
        authorize := fun _ _ => Except.error "" }
      = Except.ok (none, ["Google credentials not configured."])
    ∧ ∃ n, submitHandler (fun _ _ => (0 : ℚ)) ⟨"j", "e", none⟩ "j" "ts" none (Except.ok ())
        ⟨none, none⟩ "x"
        = (SubmitOut.sheetUnavailable, ⟨none, none⟩, n) :=
  missing_credentials_warn_and_disable_persistence _ rfl (Or.inl rfl) _ _ _ _ _ _ _
    (by decide)

/-- Example similarity function used to exhibit the Try-then-edit-then-
Submit divergence: exact string match scores 1, everything else 0. -/
def simEx : String → String → ℚ := fun a b => if a = b then 1 else 0

/-- Example translation entry for the divergence scenario. -/
def entryEx : TranslationEntry :=
  { japanese := "J1", english := "good dog", alternatives := none }

/-- C9: when a cached score from a previous Try exists, Submit records that
cached score and its label together with the CURRENT text of the input
field, calling the scorer zero times; the score is recomputed from the
current input (one scorer call) only when no cached score exists.  Hence
the interaction Try "good dog", edit the field to "bad dog", Submit,
records the answer "bad dog" with score 1 although the scorer gives
"bad dog" the score 0. -/
theorem submit_uses_cached_score_with_current_input :
    (∀ (α : Type) [_inst : LinearOrderedField α] (sim : String → String → α)
        (entry : TranslationEntry) (jap ts : String) (w : Worksheet)
        (state : SessionState α) (input : String) (s : α),
        state.last_score = some s → pyStrip input ≠ "" →
        submitHandler sim entry jap ts (some w) (Except.ok ()) state input
          = (SubmitOut.submitted (recordRow ts jap input s) (passB s), ⟨none, none⟩, 0))
    ∧ (∀ (α : Type) [_inst : LinearOrderedField α] (sim : String → String → α)
        (entry : TranslationEntry) (jap ts : String) (w : Worksheet)
        (state : SessionState α) (input : String),
        state.last_score = none → pyStrip input ≠ "" →
        ∃ s b, compute_score_and_best sim input (allVariants entry) = some (s, b)
          ∧ submitHandler sim entry jap ts (some w) (Except.ok ()) state input
            = (SubmitOut.submitted (recordRow ts jap input s) (passB s), ⟨none, none⟩, 1))
    ∧ ((tryHandler simEx entryEx ⟨none, none⟩ "good dog").2.1
          = ⟨some 1, some "good dog"⟩
      ∧ (submitHandler simEx entryEx "J1" "ts" (some ⟨"sid"⟩) (Except.ok ())
            ⟨some 1, some "good dog"⟩ "bad dog").1
          = SubmitOut.submitted (recordRow "ts" "J1" "bad dog" (1 : ℚ)) (passB (1 : ℚ))
      ∧ compute_score_and_best simEx "bad dog" (allVariants entryEx)
          = some (0, "good dog")
      ∧ (recordRow "ts" "J1" "bad dog" (1 : ℚ)).score ≠ 0) := by
  refine ⟨?_, ?_, rfl, rfl, rfl, ?_⟩
  · intro α _inst sim entry jap ts w state input s hcache hinput
    simp [submitHandler, hinput, submitScore, hcache]
  · intro α _inst sim entry jap ts w state input hcache hinput
    obtain ⟨s, b, hc, -, -, -⟩ :=
      compute_score_and_best_spec sim input (allVariants entry) (by simp [allVariants])
    exact ⟨s, b, hc, by simp [submitHandler, hinput, submitScore, hcache, hc]⟩
  · norm_num [recordRow]

theorem submit_uses_cached_score_with_current_input_witness :
    submitHandler (fun _ _ => (0 : ℚ)) ⟨"j", "e", none⟩ "j" "ts" (some ⟨"sid"⟩)
        (Except.ok ()) ⟨some (1 : ℚ), some "v"⟩ "answer"
      = (SubmitOut.submitted (recordRow "ts" "j" "answer" (1 : ℚ)) (passB (1 : ℚ)),
         ⟨none, none⟩, 0) :=
  submit_uses_cached_score_with_current_input.1 ℚ
    (fun _ _ => (0 : ℚ)) ⟨"j", "e", none⟩ "j" "ts" ⟨"sid"⟩
    ⟨some (1 : ℚ), some "v"⟩ "answer" 1 rfl (by decide)

/-- C10: with non-blank input and an available sheet, a successful append
resets both cached session fields to `None`, while a failing append
reports the caught error message and leaves the cached session state
unchanged. -/
theorem successful_append_resets_cache_failure_preserves :
    (∀ (α : Type) [_inst : LinearOrderedField α] (sim : String → String → α)
        (entry : TranslationEntry) (jap ts : String) (w : Worksheet)
        (state : SessionState α) (input : String),
        pyStrip input ≠ "" →
        ∃ row p n, submitHandler sim entry jap ts (some w) (Except.ok ()) state input
          = (SubmitOut.submitted row p, (⟨none, none⟩ : SessionState α), n))
    ∧ (∀ (α : Type) [_inst : LinearOrderedField α] (sim : String → String → α)
        (entry : TranslationEntry) (jap ts : String) (w : Worksheet)
        (state : SessionState α) (input : String) (e : String),
        pyStrip input ≠ "" →
        ∃ n, submitHandler sim entry jap ts (some w) (Except.error e) state input
          = (SubmitOut.saveFailed ("Failed to save your submission: " ++ e), state, n)) := by
  constructor
  · intro α _inst sim entry jap ts w state input hinput
    obtain ⟨s, bv, n, hss⟩ := submitScore_exists sim entry state input
    exact ⟨recordRow ts jap input s, passB s, n,
      by simp [submitHandler, hinput, hss]⟩
  · intro α _inst sim entry jap ts w state input e hinput
    obtain ⟨s, bv, n, hss⟩ := submitScore_exists sim entry state input
    exact ⟨n, by simp [submitHandler, hinput, hss]⟩

theorem successful_append_resets_cache_failure_preserves_witness :
    ∃ n, submitHandler (fun _ _ => (0 : ℚ)) ⟨"j", "e", none⟩ "j" "ts" (some ⟨"sid"⟩)
        (Except.error "boom") ⟨some (1 : ℚ), some "v"⟩ "x"
      = (SubmitOut.saveFailed ("Failed to save your submission: " ++ "boom"),
         ⟨some (1 : ℚ), some "v"⟩, n) :=
  successful_append_resets_cache_failure_preserves.2 ℚ
    (fun _ _ => (0 : ℚ)) ⟨"j", "e", none⟩ "j" "ts" ⟨"sid"⟩
    ⟨some (1 : ℚ), some "v"⟩ "x" "boom" (by decide)
